import Mathlib

/-!
Verification development for the Kando desktop-portal session client
(`src/platforms/linux/.../remote-desktop.ts`, here `src/unnamed/part_000`),
the request-correlation / token-generation layer of its `DesktopPortal`
base class (not present in the sources; modelled from the specification),
and the editor's trash tab (`src/src/renderer/editor/toolbar/trash-tab.ts`).

The portal client is embedded as a small-step operational semantics of the
single-threaded JavaScript event loop: each in-flight `setPointer`
invocation is a task with an explicit control point; code between two
`await` points runs atomically; the scheduler interleaves task resumptions
and response deliveries.  A trace of bus-level events (calls sent,
responses observed) is recorded.
-/

namespace Portal

/-- Device-type bitmask passed to `SelectDevices`, from
`RemoteDesktop.requestDevices`: `types: new DBus.Variant('u', 1 | 2)`
(keyboard = 1, pointer = 2). -/
def deviceTypes : Nat := 1 ||| 2

/-- Bus-level calls the client can send.  Object paths and tokens are
identified with the naturals produced by the token counter; the session
path is derived deterministically from the session token, so we identify
the two. -/
inductive Msg where
  | createSession (reqTok : Nat) (sessTok : Nat)
  | selectDevices (sessPath : Nat) (reqTok : Nat) (types : Nat)
  | start (sessPath : Nat) (parentWindow : String) (reqTok : Nat)
  | notifyPointerMotion (sessPath : Nat) (x : Int) (y : Int)
deriving DecidableEq, Repr

/-- Which setup step a correlated response answers. -/
inductive Phase where
  | create
  | select
  | strt
deriving DecidableEq, Repr

/-- Observable events, in the order they happen: a call sent on the bus by
task `tid`, or a response (status code on the token-derived channel)
observed by the request that task `tid` is awaiting. -/
inductive Event where
  | send (tid : Nat) (m : Msg)
  | resp (tid : Nat) (ph : Phase) (tok : Nat) (status : Nat)
deriving DecidableEq, Repr

/-- Control point of one in-flight `setPointer(x, y)` invocation.
`started`: the call was made, the body (which begins with
`await this.connect()`) has not run yet.  `awaitInit`: the task entered the
`if (!this.interface)` branch and is suspended at `await super.init()`.
`awaitCreate/Select/Start tok`: suspended awaiting the response to the
request with token `tok` inside `createSession` / `requestDevices` /
`start`.  `done`: `setPointer` resolved.  `failed`: it rejected. -/
inductive TaskCtl where
  | started (x : Int) (y : Int)
  | awaitInit (x : Int) (y : Int)
  | awaitCreate (tok : Nat) (x : Int) (y : Int)
  | awaitSelect (tok : Nat) (x : Int) (y : Int)
  | awaitStart (tok : Nat) (x : Int) (y : Int)
  | done
  | failed
deriving DecidableEq, Repr

/-- A task, with a history flag telling whether it ever entered the setup
branch of `connect` (passed the `if (!this.interface)` guard). -/
structure Task where
  ctl : TaskCtl
  didSetup : Bool
deriving DecidableEq, Repr

/-- State of one `RemoteDesktop` client instance plus its in-flight
invocations.  `hasInterface` models whether `this.interface` has been
assigned (the truthiness the `connect` guard tests); `session` models
`this.session` (its token; `none` before assignment); `tokenCtr` is the
token generator (modelled from the spec as a fresh-counter, §4.1);
`tasks` holds one entry per `setPointer` invocation, indexed by position;
`trace` is the observable bus history. -/
structure ClientState where
  hasInterface : Bool
  session : Option Nat
  tokenCtr : Nat
  tasks : List Task
  trace : List Event
deriving DecidableEq, Repr

/-- Scheduler actions: `spawn x y` — a caller invokes `setPointer x y`;
`run tid` — the event loop runs task `tid`'s next ready continuation;
`deliver tid status` — the bus delivers the response (with the given
status code) for the request task `tid` is awaiting.  Correlation itself
(that the response on the channel derived from a token reaches exactly the
request holding that token) is modelled separately by the `Corr` machine
below. -/
inductive Action where
  | spawn (x : Int) (y : Int)
  | run (tid : Nat)
  | deliver (tid : Nat) (status : Nat)
deriving DecidableEq, Repr

/-- One atomic step of the event loop, a direct embedding of
`RemoteDesktop.setPointer/connect/createSession/requestDevices/start`
with the `DesktopPortal.makeRequest` await semantics modelled from the
spec (§4.2: the returned future resolves on a zero status code and
rejects on a non-zero one).  Code between `await` points runs atomically:

* `run tid` on a `started` task executes the guard `if (!this.interface)`;
  if the interface is already assigned, `connect` resolves at once and the
  resumed `setPointer` body sends `NotifyPointerMotion(this.session.path,
  x, y)` without awaiting anything; otherwise the task suspends at
  `await super.init()`.
* `run tid` on an `awaitInit` task resumes after `super.init()`: it
  assigns `this.interface`, assigns `this.session = generateToken(...)`
  (overwriting any previous value), and `createSession` sends
  `CreateSession` with a fresh request token, suspending on its response.
* `deliver tid status` settles the response the task awaits: status 0
  resumes the next line of `connect` (which sends the next setup call, or,
  after `start`, resumes `setPointer` which fires `NotifyPointerMotion`);
  a non-zero status rejects the pending promise chain, so the whole
  invocation rejects. -/
def stepA (a : Action) (s : ClientState) : ClientState :=
  match a with
  | .spawn x y =>
      { s with tasks := s.tasks ++ [⟨.started x y, false⟩] }
  | .run tid =>
      match s.tasks[tid]? with
      | some t =>
        match t.ctl with
        | .started x y =>
            if s.hasInterface then
              { s with
                tasks := s.tasks.set tid ⟨.done, t.didSetup⟩,
                trace := s.trace ++
                  [.send tid (.notifyPointerMotion (s.session.getD 0) x y)] }
            else
              { s with tasks := s.tasks.set tid ⟨.awaitInit x y, true⟩ }
        | .awaitInit x y =>
            { s with
              hasInterface := true,
              session := some s.tokenCtr,
              tokenCtr := s.tokenCtr + 2,
              tasks := s.tasks.set tid ⟨.awaitCreate (s.tokenCtr + 1) x y, t.didSetup⟩,
              trace := s.trace ++
                [.send tid (.createSession (s.tokenCtr + 1) s.tokenCtr)] }
        | _ => s
      | none => s
  | .deliver tid status =>
      match s.tasks[tid]? with
      | some t =>
        match t.ctl with
        | .awaitCreate tok x y =>
            if status = 0 then
              { s with
                tokenCtr := s.tokenCtr + 1,
                tasks := s.tasks.set tid ⟨.awaitSelect s.tokenCtr x y, t.didSetup⟩,
                trace := s.trace ++
                  [.resp tid .create tok 0,
                   .send tid (.selectDevices (s.session.getD 0) s.tokenCtr deviceTypes)] }
            else
              { s with
                tasks := s.tasks.set tid ⟨.failed, t.didSetup⟩,
                trace := s.trace ++ [.resp tid .create tok status] }
        | .awaitSelect tok x y =>
            if status = 0 then
              { s with
                tokenCtr := s.tokenCtr + 1,
                tasks := s.tasks.set tid ⟨.awaitStart s.tokenCtr x y, t.didSetup⟩,
                trace := s.trace ++
                  [.resp tid .select tok 0,
                   .send tid (.start (s.session.getD 0) "" s.tokenCtr)] }
            else
              { s with
                tasks := s.tasks.set tid ⟨.failed, t.didSetup⟩,
                trace := s.trace ++ [.resp tid .select tok status] }
        | .awaitStart tok x y =>
            if status = 0 then
              { s with
                tasks := s.tasks.set tid ⟨.done, t.didSetup⟩,
                trace := s.trace ++
                  [.resp tid .strt tok 0,
                   .send tid (.notifyPointerMotion (s.session.getD 0) x y)] }
            else
              { s with
                tasks := s.tasks.set tid ⟨.failed, t.didSetup⟩,
                trace := s.trace ++ [.resp tid .strt tok status] }
        | _ => s
      | none => s

/-- A freshly constructed client: interface and session unset, no
invocation in flight, nothing sent. -/
def initState : ClientState :=
  { hasInterface := false, session := none, tokenCtr := 0, tasks := [], trace := [] }

/-- Run a schedule. -/
def exec (acts : List Action) (s : ClientState) : ClientState :=
  acts.foldl (fun s a => stepA a s) s

/-- Count the events satisfying a predicate. -/
def evCount (p : Event → Bool) (tr : List Event) : Nat :=
  (tr.filter p).length

/-- Is this event a `CreateSession` call being sent? -/
def isCreateSend : Event → Bool
  | .send _ (.createSession _ _) => true
  | _ => false

/-- Is this event a `SelectDevices` call being sent? -/
def isSelectSend : Event → Bool
  | .send _ (.selectDevices _ _ _) => true
  | _ => false

/-- Is this event a `Start` call being sent? -/
def isStartSend : Event → Bool
  | .send _ (.start _ _ _) => true
  | _ => false

/-- Is this event a `NotifyPointerMotion` call being sent? -/
def isNotifySend : Event → Bool
  | .send _ (.notifyPointerMotion _ _ _) => true
  | _ => false

/-- Is this event a successful (status 0) `CreateSession` response? -/
def isCreateRespOk : Event → Bool
  | .resp _ .create _ status => status == 0
  | _ => false

/-- Is this event a successful (status 0) `SelectDevices` response? -/
def isSelectRespOk : Event → Bool
  | .resp _ .select _ status => status == 0
  | _ => false

/-- Is this event a successful (status 0) `Start` response? -/
def isStartRespOk : Event → Bool
  | .resp _ .strt _ status => status == 0
  | _ => false

/-- Number of tasks whose `setPointer` promise has resolved. -/
def doneCount (ts : List Task) : Nat :=
  (ts.filter (fun t => decide (t.ctl = .done))).length

/-- The schedule in which a second `setPointer` call arrives only after the
first invocation's setup has fully completed: spawn the first call, run it
into setup, deliver the three successful responses, then spawn and run the
second call. -/
def seqSched (x1 y1 x2 y2 : Int) : List Action :=
  [.spawn x1 y1, .run 0, .run 0, .deliver 0 0, .deliver 0 0, .deliver 0 0,
   .spawn x2 y2, .run 1]

/-- The schedule in which two `setPointer` calls race the
`if (!this.interface)` guard: both bodies run (and pass the guard) before
either resumes from `await super.init()`. -/
def raceSched (x1 y1 x2 y2 : Int) : List Action :=
  [.spawn x1 y1, .spawn x2 y2, .run 0, .run 1, .run 0, .run 1]

/-- A task is suspended awaiting the response of one of the three setup
requests. -/
def awaitingSetup : TaskCtl → Bool
  | .awaitCreate _ _ _ => true
  | .awaitSelect _ _ _ => true
  | .awaitStart _ _ _ => true
  | _ => false

/-- Check that every `SelectDevices` call in a trace carries the constant
device bitmask 3 and every `Start` call carries the empty parent-window
string. -/
def msgsFixed (tr : List Event) : Bool :=
  tr.all fun e =>
    match e with
    | .send _ (.selectDevices _ _ types) => types == 3
    | .send _ (.start _ parentWindow _) => parentWindow == ""
    | _ => true

end Portal

namespace Corr

/-!
Request Correlator: modelled from the spec (§4.2 and §6), because
`DesktopPortal.makeRequest` and the response-subscription code are not
among the sources — only their caller `RemoteDesktop` is.  A request's
response channel is a deterministic injective function of its token
(`responsePath` of the unique bus name and the token), so channels are
identified with tokens.  The pending table maps each channel to the future
created for it; a delivered notification `(statusCode, results)` settles
exactly the future registered on its channel, removing the entry, and a
connection teardown settles every still-pending future with a
connection-failure error.
-/

/-- The observable state of one request's future.  `pending` — registered,
not settled; `success payload` — settled with the response payload of a
zero-status response; `failure code` — settled with the non-zero status
code (`RequestDenied`); `connLost` — settled with the connection-failure
error (`ConnectionError`). -/
inductive Outcome where
  | pending
  | success (payload : Nat)
  | failure (code : Nat)
  | connLost
deriving DecidableEq, Repr

/-- Modelled from the spec: the Request Correlator's state — the token
counter of the Token Generator and the table of futures keyed by the
token-derived response channel, in creation order.  An entry whose outcome
is `pending` is exactly a `PendingCall` of the spec's data model; settled
entries stay readable so that settlement can be observed. -/
structure CorrState where
  nextTok : Nat
  futures : List (Nat × Outcome)
deriving DecidableEq, Repr

/-- Modelled from the spec: `DesktopPortal.makeRequest` — generate a fresh
request token, register a pending entry on the channel derived from it
(before the call is sent), and hand the token to the send function.
Returns the new request's token together with the new state. -/
def makeRequest (s : CorrState) : Nat × CorrState :=
  (s.nextTok,
   { nextTok := s.nextTok + 1, futures := s.futures ++ [(s.nextTok, .pending)] })

/-- The outcome a response with the given status code settles a future
with (§4.2 step 5). -/
def settleOutcome (status payload : Nat) : Outcome :=
  if status = 0 then .success payload else .failure status

/-- Modelled from the spec: delivery of a response notification
`(status, payload)` on the channel derived from token `tok`.  Only a
pending entry registered on exactly that channel is settled (success on
status 0, failure otherwise) and thereby removed from the pending table; a
notification on a channel with no pending entry is ignored. -/
def deliver (tok status payload : Nat) (s : CorrState) : CorrState :=
  { s with
    futures := s.futures.map fun e =>
      if e.1 = tok ∧ e.2 = Outcome.pending then (e.1, settleOutcome status payload)
      else e }

/-- Modelled from the spec: teardown of the underlying connection — every
still-pending future is settled with the connection-failure error; already
settled futures keep their outcome. -/
def connDrop (s : CorrState) : CorrState :=
  { s with
    futures := s.futures.map fun e =>
      if e.2 = Outcome.pending then (e.1, Outcome.connLost) else e }

/-- Look up the future registered on channel `tok`. -/
def findTok (tok : Nat) : List (Nat × Outcome) → Option Outcome
  | [] => none
  | e :: rest => if e.1 = tok then some e.2 else findTok tok rest

/-- A correlator holding exactly `n` pending requests with tokens
`0, ..., n-1`. -/
def pendingN : Nat → CorrState
  | 0 => { nextTok := 0, futures := [] }
  | n + 1 => (makeRequest (pendingN n)).2

end Corr

namespace TokenGen

/-!
Token Generator: modelled from the spec (§4.1), because
`DesktopPortal.generateToken` is not among the sources.  The spec's
contract: `generate(prefix)` returns a bus-object-path-segment token,
unique for the process lifetime, with "a monotonically increasing counter
combined with a random suffix" as the sanctioned scheme; the only internal
state is the counter.  We render the counter in decimal after the prefix
and an underscore separator.
-/

/-- The decimal digit character for `d < 10`. -/
def decChar (d : Nat) : Char := Char.ofNat (48 + d)

/-- Decimal rendering of a natural number, most significant digit
first. -/
def natDigits (n : Nat) : List Char :=
  if n < 10 then [decChar n]
  else natDigits (n / 10) ++ [decChar (n % 10)]
decreasing_by exact Nat.div_lt_self (by omega) (by omega)

/-- Numeric value of a decimal digit character. -/
def decVal (c : Char) : Nat := c.toNat - 48

/-- Decode a most-significant-first decimal digit list. -/
def fromDigits (l : List Char) : Nat :=
  l.foldl (fun a c => 10 * a + decVal c) 0

/-- Modelled from the spec: the Token Generator's only state, a
monotonically increasing counter. -/
structure Gen where
  counter : Nat
deriving DecidableEq, Repr

/-- The token produced for a prefix at a given counter value. -/
def tokenStr (pfx : String) (c : Nat) : String :=
  pfx ++ "_" ++ String.mk (natDigits c)

/-- Modelled from the spec: `generate(prefix)` — emit the token for the
current counter value and advance the counter.  No other side effect. -/
def generate (pfx : String) (g : Gen) : String × Gen :=
  (tokenStr pfx g.counter, ⟨g.counter + 1⟩)

/-- The list of tokens obtained by calling `generate` `n` times in a row
on one generator. -/
def genTokens (pfx : String) : Nat → Gen → List String
  | 0, _ => []
  | n + 1, g => (generate pfx g).1 :: genTokens pfx n (generate pfx g).2

/-- A character allowed in a bus-object-path segment:
`[A-Za-z0-9_]`. -/
def validSegChar (c : Char) : Bool := c.isAlphanum || c == '_'

/-- Syntactic validity of a string as a bus-object-path segment: nonempty
and made only of allowed characters. -/
def validSeg (s : String) : Bool := !s.data.isEmpty && s.data.all validSegChar

end TokenGen

namespace Trash

/-!
Trash tab of the menu editor, embedded from
`src/src/renderer/editor/toolbar/trash-tab.ts`.  Trashed things (menus or
menu items) are identified by their reference identity, modelled as a
natural number; JavaScript's `!==` on object references is equality of
identities.  A registered draggable is modelled by the identity of the
trashed thing it wraps; `redraw` first unregisters every draggable and
then registers exactly one new draggable per trash entry, so the list of
registered draggables after a redraw is the item list itself.  The
counter element's text is the decimal rendering of `trash.length`.
-/

/-- The tab state: the `trash` array, the registered draggables (one per
trash entry, holding the wrapped thing's identity, in order), and the text
content of the `#kando-trash-tab-counter` element. -/
structure TrashState where
  trash : List Nat
  draggables : List Nat
  counter : String
deriving DecidableEq, Repr

/-- `TrashTab.redraw`: unregister all draggables, register one fresh
draggable per trash entry (wrapping that entry), and set the counter text
to `this.trash.length.toString()`. -/
def redraw (s : TrashState) : TrashState :=
  { trash := s.trash,
    draggables := s.trash,
    counter := String.mk (TokenGen.natDigits s.trash.length) }

/-- `TrashTab.onDrop`: push the dropped thing onto `trash`, then
redraw. -/
def onDrop (item : Nat) (s : TrashState) : TrashState :=
  redraw { s with trash := s.trash ++ [item] }

/-- The per-draggable `drop` handler installed by `redraw`: restoring a
trashed `thing` filters it out of `trash` (by reference identity), then
redraws. -/
def restoreDrop (item : Nat) (s : TrashState) : TrashState :=
  redraw { s with trash := s.trash.filter (fun t => t != item) }

/-- The constructor: empty trash, then an initial `redraw`. -/
def initTrash : TrashState :=
  redraw { trash := [], draggables := [], counter := "" }

/-- The user-visible events the tab reacts to. -/
inductive TEvent where
  | drop (item : Nat)
  | restore (item : Nat)
deriving DecidableEq, Repr

/-- Apply one event. -/
def applyT : TEvent → TrashState → TrashState
  | .drop item, s => onDrop item s
  | .restore item, s => restoreDrop item s

/-- The state after construction followed by a sequence of events. -/
def runT (evs : List TEvent) : TrashState :=
  evs.foldl (fun s e => applyT e s) initTrash

end Trash

namespace Portal

theorem evCount_append (p : Event → Bool) (a b : List Event) :
    evCount p (a ++ b) = evCount p a + evCount p b := by
  simp [evCount, List.filter_append]

theorem evCount_cons (p : Event → Bool) (e : Event) (tr : List Event) :
    evCount p (e :: tr) = (if p e then 1 else 0) + evCount p tr := by
  by_cases hc : p e <;> simp [evCount, List.filter_cons, hc, Nat.add_comm]

theorem evCount_nil (p : Event → Bool) : evCount p [] = 0 := rfl

theorem exec_append (acts1 acts2 : List Action) (s : ClientState) :
    exec (acts1 ++ acts2) s = exec acts2 (exec acts1 s) := by
  simp [exec, List.foldl_append]

theorem doneCount_cons (t : Task) (l : List Task) :
    doneCount (t :: l) = (if t.ctl = TaskCtl.done then 1 else 0) + doneCount l := by
  by_cases hc : t.ctl = TaskCtl.done <;>
    simp [doneCount, List.filter_cons, hc, Nat.add_comm]

theorem doneCount_append (a b : List Task) :
    doneCount (a ++ b) = doneCount a + doneCount b := by
  simp [doneCount, List.filter_append]

theorem doneCount_set (l : List Task) (i : Nat) (t t' : Task)
    (h : l[i]? = some t) :
    doneCount (l.set i t') + (if t.ctl = TaskCtl.done then 1 else 0)
      = doneCount l + (if t'.ctl = TaskCtl.done then 1 else 0) := by
  induction l generalizing i with
  | nil => simp at h
  | cons hd tl ih =>
    cases i with
    | zero =>
      simp only [List.getElem?_cons_zero, Option.some_inj] at h
      subst h
      simp [List.set_cons_zero, doneCount_cons]
      omega
    | succ j =>
      simp only [List.getElem?_cons_succ] at h
      simp [List.set_cons_succ, doneCount_cons]
      have := ih j h
      omega

set_option maxHeartbeats 1000000 in
/-- "C1": connect-once.  As stated the claim is false (see
`c1_counterexample`): the guard `if (!this.interface)` is evaluated before
`this.interface` is assigned, and the assignment happens only after the
suspension at `await super.init()`, so two `setPointer` invocations that
both start before the first resumes from `super.init()` both pass the
guard and both run the full setup.  Amended property, proved: (1) for
invocations sequenced after the first setup completed, exactly one
`CreateSession` is sent in total — the later caller finds the interface
assigned and triggers no setup at all; (2) in any state in which the
interface handle is already assigned, running a freshly started
`setPointer` invocation sends no `CreateSession`. -/
theorem c1_connect_once_amended :
    (∀ x1 y1 x2 y2 : Int,
        evCount isCreateSend (exec (seqSched x1 y1 x2 y2) initState).trace = 1)
    ∧ (∀ (s : ClientState) (tid : Nat) (t : Task) (x y : Int),
        s.tasks[tid]? = some t → t.ctl = TaskCtl.started x y →
        s.hasInterface = true →
        evCount isCreateSend (stepA (.run tid) s).trace
          = evCount isCreateSend s.trace) := by
  constructor
  · intro x1 y1 x2 y2
    simp [seqSched, exec, stepA, initState, evCount, isCreateSend, deviceTypes]
  · intro s tid t x y hget hctl hif
    simp [stepA, hget, hctl, hif, evCount_append, evCount, isCreateSend]

/-- "C1": witness for the amended theorem, at a concrete state whose task
0 is a freshly started invocation while the interface is already
assigned. -/
theorem c1_connect_once_amended_witness :
    evCount isCreateSend
        (stepA (.run 0)
          { hasInterface := true, session := some 0, tokenCtr := 4,
            tasks := [⟨.started 7 8, false⟩], trace := [] }).trace
      = evCount isCreateSend
          (ClientState.trace
            { hasInterface := true, session := some 0, tokenCtr := 4,
              tasks := [⟨.started 7 8, false⟩], trace := [] }) :=
  c1_connect_once_amended.2
    { hasInterface := true, session := some 0, tokenCtr := 4,
      tasks := [⟨.started 7 8, false⟩], trace := [] }
    0 ⟨.started 7 8, false⟩ 7 8 (by decide) (by decide) (by decide)

/-- "C1": counterexample to the claim as stated — two `setPointer(10,20)` /
`setPointer(30,40)` invocations racing the guard yield two `CreateSession`
calls, not exactly one. -/
theorem c1_counterexample :
    evCount isCreateSend (exec (raceSched 10 20 30 40) initState).trace = 2
    ∧ evCount isCreateSend (exec (raceSched 10 20 30 40) initState).trace ≠ 1 := by
  decide

theorem stepA_ordering (a : Action) (s : ClientState)
    (h1 : evCount isSelectSend s.trace ≤ evCount isCreateRespOk s.trace)
    (h2 : evCount isStartSend s.trace ≤ evCount isSelectRespOk s.trace) :
    evCount isSelectSend (stepA a s).trace
      ≤ evCount isCreateRespOk (stepA a s).trace
    ∧ evCount isStartSend (stepA a s).trace
      ≤ evCount isSelectRespOk (stepA a s).trace := by
  cases a with
  | spawn x y =>
    simp only [stepA]
    exact ⟨h1, h2⟩
  | run tid =>
    rcases hg : s.tasks[tid]? with _ | t
    · simp only [stepA, hg]
      exact ⟨h1, h2⟩
    · obtain ⟨ctl, ds⟩ := t
      cases ctl with
      | started x y =>
        by_cases hif : s.hasInterface <;>
          refine ⟨?_, ?_⟩ <;>
          simp [stepA, hg, hif, evCount_append, evCount_cons, evCount_nil,
            isSelectSend, isStartSend, isCreateRespOk, isSelectRespOk] <;>
          omega
      | awaitInit x y =>
        refine ⟨?_, ?_⟩ <;>
          simp [stepA, hg, evCount_append, evCount_cons, evCount_nil,
            isSelectSend, isStartSend, isCreateRespOk, isSelectRespOk] <;>
          omega
      | awaitCreate tok x y => simp only [stepA, hg]; exact ⟨h1, h2⟩
      | awaitSelect tok x y => simp only [stepA, hg]; exact ⟨h1, h2⟩
      | awaitStart tok x y => simp only [stepA, hg]; exact ⟨h1, h2⟩
      | done => simp only [stepA, hg]; exact ⟨h1, h2⟩
      | failed => simp only [stepA, hg]; exact ⟨h1, h2⟩
  | deliver tid status =>
    rcases hg : s.tasks[tid]? with _ | t
    · simp only [stepA, hg]
      exact ⟨h1, h2⟩
    · obtain ⟨ctl, ds⟩ := t
      cases ctl with
      | started x y => simp only [stepA, hg]; exact ⟨h1, h2⟩
      | awaitInit x y => simp only [stepA, hg]; exact ⟨h1, h2⟩
      | awaitCreate tok x y =>
        by_cases hst : status = 0
        · subst hst
          refine ⟨?_, ?_⟩ <;>
            simp [stepA, hg, evCount_append, evCount_cons, evCount_nil,
              isSelectSend, isStartSend, isCreateRespOk, isSelectRespOk] <;>
            omega
        · have hb : (status == 0) = false := beq_eq_false_iff_ne.mpr hst
          refine ⟨?_, ?_⟩ <;>
            simp [stepA, hg, hst, hb, evCount_append, evCount_cons, evCount_nil,
              isSelectSend, isStartSend, isCreateRespOk, isSelectRespOk] <;>
            omega
      | awaitSelect tok x y =>
        by_cases hst : status = 0
        · subst hst
          refine ⟨?_, ?_⟩ <;>
            simp [stepA, hg, evCount_append, evCount_cons, evCount_nil,
              isSelectSend, isStartSend, isCreateRespOk, isSelectRespOk] <;>
            omega
        · have hb : (status == 0) = false := beq_eq_false_iff_ne.mpr hst
          refine ⟨?_, ?_⟩ <;>
            simp [stepA, hg, hst, hb, evCount_append, evCount_cons, evCount_nil,
              isSelectSend, isStartSend, isCreateRespOk, isSelectRespOk] <;>
            omega
      | awaitStart tok x y =>
        by_cases hst : status = 0
        · subst hst
          refine ⟨?_, ?_⟩ <;>
            simp [stepA, hg, evCount_append, evCount_cons, evCount_nil,
              isSelectSend, isStartSend, isCreateRespOk, isSelectRespOk] <;>
            omega
        · have hb : (status == 0) = false := beq_eq_false_iff_ne.mpr hst
          refine ⟨?_, ?_⟩ <;>
            simp [stepA, hg, hst, hb, evCount_append, evCount_cons, evCount_nil,
              isSelectSend, isStartSend, isCreateRespOk, isSelectRespOk] <;>
            omega
      | done => simp only [stepA, hg]; exact ⟨h1, h2⟩
      | failed => simp only [stepA, hg]; exact ⟨h1, h2⟩

theorem exec_ordering (acts : List Action) (s : ClientState)
    (h1 : evCount isSelectSend s.trace ≤ evCount isCreateRespOk s.trace)
    (h2 : evCount isStartSend s.trace ≤ evCount isSelectRespOk s.trace) :
    evCount isSelectSend (exec acts s).trace
      ≤ evCount isCreateRespOk (exec acts s).trace
    ∧ evCount isStartSend (exec acts s).trace
      ≤ evCount isSelectRespOk (exec acts s).trace := by
  induction acts generalizing s with
  | nil => exact ⟨h1, h2⟩
  | cons a rest ih =>
    have h := stepA_ordering a s h1 h2
    exact ih (stepA a s) h.1 h.2

/-- "C3": setup-step ordering.  Confirmed: in every execution of the
client (every schedule of spawns, resumptions and response deliveries,
i.e. at every prefix of every behaviour), the number of `SelectDevices`
calls sent never exceeds the number of successful `CreateSession`
responses observed so far, and the number of `Start` calls sent never
exceeds the number of successful `SelectDevices` responses observed so
far — so a `SelectDevices` is never sent before a `CreateSession` response
was observed, and a `Start` never before a `SelectDevices` response. -/
theorem c3_setup_ordering (acts : List Action) :
    evCount isSelectSend (exec acts initState).trace
      ≤ evCount isCreateRespOk (exec acts initState).trace
    ∧ evCount isStartSend (exec acts initState).trace
      ≤ evCount isSelectRespOk (exec acts initState).trace :=
  exec_ordering acts initState (by decide) (by decide)

theorem stepA_notify (a : Action) (s : ClientState)
    (h : evCount isNotifySend s.trace = doneCount s.tasks) :
    evCount isNotifySend (stepA a s).trace = doneCount (stepA a s).tasks := by
  cases a with
  | spawn x y =>
    simp [stepA, doneCount_append, doneCount_cons, doneCount]
    exact h
  | run tid =>
    rcases hg : s.tasks[tid]? with _ | t
    · simp only [stepA, hg]; exact h
    · obtain ⟨ctl, ds⟩ := t
      cases ctl with
      | started x y =>
        by_cases hif : s.hasInterface
        · have hset := doneCount_set s.tasks tid ⟨.started x y, ds⟩ ⟨.done, ds⟩ hg
          simp at hset
          simp [stepA, hg, hif, evCount_append, evCount_cons, evCount_nil, isNotifySend]
          omega
        · have hset := doneCount_set s.tasks tid ⟨.started x y, ds⟩
            ⟨.awaitInit x y, true⟩ hg
          simp at hset
          simp [stepA, hg, hif]
          omega
      | awaitInit x y =>
        have hset := doneCount_set s.tasks tid ⟨.awaitInit x y, ds⟩
          ⟨.awaitCreate (s.tokenCtr + 1) x y, ds⟩ hg
        simp at hset
        simp [stepA, hg, evCount_append, evCount_cons, evCount_nil, isNotifySend]
        omega
      | awaitCreate tok x y => simp only [stepA, hg]; exact h
      | awaitSelect tok x y => simp only [stepA, hg]; exact h
      | awaitStart tok x y => simp only [stepA, hg]; exact h
      | done => simp only [stepA, hg]; exact h
      | failed => simp only [stepA, hg]; exact h
  | deliver tid status =>
    rcases hg : s.tasks[tid]? with _ | t
    · simp only [stepA, hg]; exact h
    · obtain ⟨ctl, ds⟩ := t
      cases ctl with
      | started x y => simp only [stepA, hg]; exact h
      | awaitInit x y => simp only [stepA, hg]; exact h
      | awaitCreate tok x y =>
        by_cases hst : status = 0
        · subst hst
          have hset := doneCount_set s.tasks tid ⟨.awaitCreate tok x y, ds⟩
            ⟨.awaitSelect s.tokenCtr x y, ds⟩ hg
          simp at hset
          simp [stepA, hg, evCount_append, evCount_cons, evCount_nil, isNotifySend]
          omega
        · have hset := doneCount_set s.tasks tid ⟨.awaitCreate tok x y, ds⟩
            ⟨.failed, ds⟩ hg
          simp at hset
          simp [stepA, hg, hst, evCount_append, evCount_cons, evCount_nil, isNotifySend]
          omega
      | awaitSelect tok x y =>
        by_cases hst : status = 0
        · subst hst
          have hset := doneCount_set s.tasks tid ⟨.awaitSelect tok x y, ds⟩
            ⟨.awaitStart s.tokenCtr x y, ds⟩ hg
          simp at hset
          simp [stepA, hg, evCount_append, evCount_cons, evCount_nil, isNotifySend]
          omega
        · have hset := doneCount_set s.tasks tid ⟨.awaitSelect tok x y, ds⟩
            ⟨.failed, ds⟩ hg
          simp at hset
          simp [stepA, hg, hst, evCount_append, evCount_cons, evCount_nil, isNotifySend]
          omega
      | awaitStart tok x y =>
        by_cases hst : status = 0
        · subst hst
          have hset := doneCount_set s.tasks tid ⟨.awaitStart tok x y, ds⟩
            ⟨.done, ds⟩ hg
          simp at hset
          simp [stepA, hg, evCount_append, evCount_cons, evCount_nil, isNotifySend]
          omega
        · have hset := doneCount_set s.tasks tid ⟨.awaitStart tok x y, ds⟩
            ⟨.failed, ds⟩ hg
          simp at hset
          simp [stepA, hg, hst, evCount_append, evCount_cons, evCount_nil, isNotifySend]
          omega
      | done => simp only [stepA, hg]; exact h
      | failed => simp only [stepA, hg]; exact h

theorem exec_notify (acts : List Action) (s : ClientState)
    (h : evCount isNotifySend s.trace = doneCount s.tasks) :
    evCount isNotifySend (exec acts s).trace = doneCount (exec acts s).tasks := by
  induction acts generalizing s with
  | nil => exact h
  | cons a rest ih => exact ih (stepA a s) (stepA_notify a s h)

set_option maxHeartbeats 1000000 in
/-- "C4": gated fire-and-forget motion injection.  As stated the claim is
false (see `c4_counterexample`): a `setPointer` call made after
`this.interface` was assigned but before the setup sequence finished skips
the guard and sends `NotifyPointerMotion` before the session is `Started`,
and two calls racing the guard yield two setup sequences, not one.
Amended property, proved: (1) when the second call arrives after the first
invocation's setup completed, the observable behaviour is exactly one
`CreateSession` → `SelectDevices` → `Start` sequence, each step after the
previous one's successful response, followed by the two fire-and-forget
`NotifyPointerMotion` calls carrying the given coordinates against the
established session path; (2) in every execution, the number of
`NotifyPointerMotion` calls sent equals the number of `setPointer`
invocations that have resolved — motion injection happens exactly when an
invocation's own `connect()` await chain completes, in the same atomic
continuation, never awaiting a reply. -/
theorem c4_motion_amended :
    (∀ x1 y1 x2 y2 : Int,
        (exec (seqSched x1 y1 x2 y2) initState).trace =
          [.send 0 (.createSession 1 0), .resp 0 .create 1 0,
           .send 0 (.selectDevices 0 2 deviceTypes), .resp 0 .select 2 0,
           .send 0 (.start 0 "" 3), .resp 0 .strt 3 0,
           .send 0 (.notifyPointerMotion 0 x1 y1),
           .send 1 (.notifyPointerMotion 0 x2 y2)])
    ∧ (∀ acts : List Action,
        evCount isNotifySend (exec acts initState).trace
          = doneCount (exec acts initState).tasks) := by
  constructor
  · intro x1 y1 x2 y2
    simp [seqSched, exec, stepA, initState, deviceTypes]
  · intro acts
    exact exec_notify acts initState (by decide)

/-- "C4": counterexample to the claim as stated — a second `setPointer`
call arriving after the interface handle was assigned (one step into the
first call's setup) sends `NotifyPointerMotion` although no `Start` call
was even sent, let alone a successful `Start` response observed. -/
theorem c4_counterexample :
    evCount isNotifySend
        (exec [.spawn 10 20, .run 0, .run 0, .spawn 10 20, .run 1] initState).trace = 1
    ∧ evCount isStartRespOk
        (exec [.spawn 10 20, .run 0, .run 0, .spawn 10 20, .run 1] initState).trace = 0
    ∧ evCount isStartSend
        (exec [.spawn 10 20, .run 0, .run 0, .spawn 10 20, .run 1] initState).trace = 0 := by
  decide

theorem msgsFixed_append (a b : List Event) :
    msgsFixed (a ++ b) = (msgsFixed a && msgsFixed b) := by
  simp [msgsFixed, List.all_append]

theorem stepA_msgsFixed (a : Action) (s : ClientState)
    (h : msgsFixed s.trace = true) :
    msgsFixed (stepA a s).trace = true := by
  cases a with
  | spawn x y => simp only [stepA]; exact h
  | run tid =>
    rcases hg : s.tasks[tid]? with _ | t
    · simp only [stepA, hg]; exact h
    · obtain ⟨ctl, ds⟩ := t
      cases ctl with
      | started x y =>
        by_cases hif : s.hasInterface
        · simp only [stepA, hg, hif, if_true, msgsFixed_append, h, Bool.true_and]
          rfl
        · simp only [stepA, hg, hif, Bool.false_eq_true, if_false,
            msgsFixed_append, h, Bool.true_and]
      | awaitInit x y =>
        simp only [stepA, hg, msgsFixed_append, h, Bool.true_and]
        rfl
      | awaitCreate tok x y => simp only [stepA, hg]; exact h
      | awaitSelect tok x y => simp only [stepA, hg]; exact h
      | awaitStart tok x y => simp only [stepA, hg]; exact h
      | done => simp only [stepA, hg]; exact h
      | failed => simp only [stepA, hg]; exact h
  | deliver tid status =>
    rcases hg : s.tasks[tid]? with _ | t
    · simp only [stepA, hg]; exact h
    · obtain ⟨ctl, ds⟩ := t
      cases ctl with
      | started x y => simp only [stepA, hg]; exact h
      | awaitInit x y => simp only [stepA, hg]; exact h
      | awaitCreate tok x y =>
        by_cases hst : status = 0
        · simp only [stepA, hg, if_pos hst, msgsFixed_append, h, Bool.true_and]
          rfl
        · simp only [stepA, hg, if_neg hst, msgsFixed_append, h, Bool.true_and]
          rfl
      | awaitSelect tok x y =>
        by_cases hst : status = 0
        · simp only [stepA, hg, if_pos hst, msgsFixed_append, h, Bool.true_and]
          rfl
        · simp only [stepA, hg, if_neg hst, msgsFixed_append, h, Bool.true_and]
          rfl
      | awaitStart tok x y =>
        by_cases hst : status = 0
        · simp only [stepA, hg, if_pos hst, msgsFixed_append, h, Bool.true_and]
          rfl
        · simp only [stepA, hg, if_neg hst, msgsFixed_append, h, Bool.true_and]
          rfl
      | done => simp only [stepA, hg]; exact h
      | failed => simp only [stepA, hg]; exact h

theorem exec_msgsFixed (acts : List Action) (s : ClientState)
    (h : msgsFixed s.trace = true) :
    msgsFixed (exec acts s).trace = true := by
  induction acts generalizing s with
  | nil => exact h
  | cons a rest ih => exact ih (stepA a s) (stepA_msgsFixed a s h)

/-- "C9": fixed device selection.  Confirmed: the bitmask passed to
`SelectDevices` is the constant `1 ||| 2 = 3` (keyboard OR pointer) — it
is baked into `requestDevices`, taken from no per-call input — and every
`Start` call passes the empty string as the parent-window hint: in every
execution, every `SelectDevices` event carries bitmask 3 and every `Start`
event carries `""`. -/
theorem c9_fixed_arguments :
    deviceTypes = 3
    ∧ ∀ acts : List Action, msgsFixed (exec acts initState).trace = true :=
  ⟨by decide, fun acts => exec_msgsFixed acts initState (by decide)⟩

theorem stepA_tasks_shape (a : Action) (s : ClientState) :
    stepA a s = s
    ∨ (∃ x y, (stepA a s).tasks = s.tasks ++ [⟨.started x y, false⟩])
    ∨ (∃ i t t', s.tasks[i]? = some t ∧ t.ctl ≠ TaskCtl.failed
        ∧ (stepA a s).tasks = s.tasks.set i t') := by
  cases a with
  | spawn x y =>
    refine Or.inr (Or.inl ⟨x, y, ?_⟩)
    simp [stepA]
  | run tid =>
    rcases hg : s.tasks[tid]? with _ | t
    · exact Or.inl (by simp [stepA, hg])
    · obtain ⟨ctl, ds⟩ := t
      cases ctl with
      | started x y =>
        by_cases hif : s.hasInterface
        · exact Or.inr (Or.inr ⟨tid, ⟨.started x y, ds⟩, ⟨.done, ds⟩, hg,
            by simp, by simp [stepA, hg, hif]⟩)
        · exact Or.inr (Or.inr ⟨tid, ⟨.started x y, ds⟩, ⟨.awaitInit x y, true⟩, hg,
            by simp, by simp [stepA, hg, hif]⟩)
      | awaitInit x y =>
        exact Or.inr (Or.inr ⟨tid, ⟨.awaitInit x y, ds⟩,
          ⟨.awaitCreate (s.tokenCtr + 1) x y, ds⟩, hg, by simp, by simp [stepA, hg]⟩)
      | awaitCreate tok x y => exact Or.inl (by simp [stepA, hg])
      | awaitSelect tok x y => exact Or.inl (by simp [stepA, hg])
      | awaitStart tok x y => exact Or.inl (by simp [stepA, hg])
      | done => exact Or.inl (by simp [stepA, hg])
      | failed => exact Or.inl (by simp [stepA, hg])
  | deliver tid status =>
    rcases hg : s.tasks[tid]? with _ | t
    · exact Or.inl (by simp [stepA, hg])
    · obtain ⟨ctl, ds⟩ := t
      cases ctl with
      | started x y => exact Or.inl (by simp [stepA, hg])
      | awaitInit x y => exact Or.inl (by simp [stepA, hg])
      | awaitCreate tok x y =>
        by_cases hst : status = 0
        · exact Or.inr (Or.inr ⟨tid, ⟨.awaitCreate tok x y, ds⟩,
            ⟨.awaitSelect s.tokenCtr x y, ds⟩, hg, by simp,
            by simp [stepA, hg, if_pos hst]⟩)
        · exact Or.inr (Or.inr ⟨tid, ⟨.awaitCreate tok x y, ds⟩,
            ⟨.failed, ds⟩, hg, by simp, by simp [stepA, hg, if_neg hst]⟩)
      | awaitSelect tok x y =>
        by_cases hst : status = 0
        · exact Or.inr (Or.inr ⟨tid, ⟨.awaitSelect tok x y, ds⟩,
            ⟨.awaitStart s.tokenCtr x y, ds⟩, hg, by simp,
            by simp [stepA, hg, if_pos hst]⟩)
        · exact Or.inr (Or.inr ⟨tid, ⟨.awaitSelect tok x y, ds⟩,
            ⟨.failed, ds⟩, hg, by simp, by simp [stepA, hg, if_neg hst]⟩)
      | awaitStart tok x y =>
        by_cases hst : status = 0
        · exact Or.inr (Or.inr ⟨tid, ⟨.awaitStart tok x y, ds⟩,
            ⟨.done, ds⟩, hg, by simp, by simp [stepA, hg, if_pos hst]⟩)
        · exact Or.inr (Or.inr ⟨tid, ⟨.awaitStart tok x y, ds⟩,
            ⟨.failed, ds⟩, hg, by simp, by simp [stepA, hg, if_neg hst]⟩)
      | done => exact Or.inl (by simp [stepA, hg])
      | failed => exact Or.inl (by simp [stepA, hg])

theorem stepA_failed_absorbing (a : Action) (s : ClientState) (tid : Nat) (ds : Bool)
    (h : s.tasks[tid]? = some ⟨.failed, ds⟩) :
    (stepA a s).tasks[tid]? = some ⟨.failed, ds⟩ := by
  rcases stepA_tasks_shape a s with heq | ⟨x, y, htasks⟩ | ⟨i, t, t', hi, hctl, htasks⟩
  · rw [heq]; exact h
  · have hlt : tid < s.tasks.length := by
      by_contra hge
      rw [List.getElem?_len_le (Nat.le_of_not_lt hge)] at h
      cases h
    rw [htasks, List.getElem?_append_left hlt]
    exact h
  · rcases eq_or_ne i tid with rfl | hne
    · rw [h] at hi
      cases hi
      exact absurd rfl hctl
    · rw [htasks, List.getElem?_set_ne hne]
      exact h

theorem exec_failed_absorbing (acts : List Action) (s : ClientState) (tid : Nat)
    (ds : Bool) (h : s.tasks[tid]? = some ⟨.failed, ds⟩) :
    (exec acts s).tasks[tid]? = some ⟨.failed, ds⟩ := by
  induction acts generalizing s with
  | nil => exact h
  | cons a rest ih => exact ih (stepA a s) (stepA_failed_absorbing a s tid ds h)

/-- "C2": failure propagation.  As stated the claim is false (see
`c2_counterexample`): there is no `Failed` state on the client and no
memoised error — after a setup step fails, `this.interface` remains
assigned, so every future `setPointer`/`connect` caller skips setup
entirely, resolves successfully, and even goes on to inject pointer
motion; the error reaches only the invocation whose own setup chain
failed.  Amended property, proved: (1) a non-zero status delivered to any
awaited setup request rejects that invocation — its task is `failed` from
then on; (2) a rejected invocation is never retried: it stays `failed`
under every continuation of the execution, no matter the schedule; (3)
concretely, after a `CreateSession` failure (status 7) the invocation that
ran setup ends `failed` while a later `setPointer` call ends `done`,
untouched by the earlier error. -/
theorem c2_failure_amended :
    (∀ (s : ClientState) (tid status : Nat) (t : Task),
        s.tasks[tid]? = some t → awaitingSetup t.ctl = true → status ≠ 0 →
        (stepA (.deliver tid status) s).tasks[tid]? = some ⟨.failed, t.didSetup⟩)
    ∧ (∀ (acts : List Action) (s : ClientState) (tid : Nat) (ds : Bool),
        s.tasks[tid]? = some ⟨.failed, ds⟩ →
        (exec acts s).tasks[tid]? = some ⟨.failed, ds⟩)
    ∧ ((exec [.spawn 5 6, .run 0, .run 0, .deliver 0 7, .spawn 8 9, .run 1]
          initState).tasks[0]? = some ⟨.failed, true⟩
       ∧ (exec [.spawn 5 6, .run 0, .run 0, .deliver 0 7, .spawn 8 9, .run 1]
            initState).tasks[1]? = some ⟨.done, false⟩) := by
  refine ⟨?_, exec_failed_absorbing, by decide⟩
  intro s tid status t hget hawait hst
  have hlt : tid < s.tasks.length := by
    by_contra hge
    rw [List.getElem?_len_le (Nat.le_of_not_lt hge)] at hget
    cases hget
  obtain ⟨ctl, ds⟩ := t
  cases ctl <;> simp [awaitingSetup] at hawait <;>
    simp [stepA, hget, if_neg hst, List.getElem?_set_self', List.getElem?_eq_getElem hlt]

/-- "C2": witness for the amended theorem — a non-zero `SelectDevices`
status (the spec's own scenario) rejects the awaiting invocation, and a
`failed` task stays `failed` across further steps. -/
theorem c2_failure_amended_witness :
    (stepA (.deliver 0 2)
        { hasInterface := true, session := some 0, tokenCtr := 3,
          tasks := [⟨.awaitSelect 2 1 2, true⟩], trace := [] }).tasks[0]?
      = some ⟨.failed, true⟩
    ∧ (exec [.spawn 4 5, .run 1, .deliver 0 0]
        { hasInterface := true, session := some 0, tokenCtr := 3,
          tasks := [⟨.failed, true⟩], trace := [] }).tasks[0]?
      = some ⟨.failed, true⟩ :=
  ⟨c2_failure_amended.1
      { hasInterface := true, session := some 0, tokenCtr := 3,
        tasks := [⟨.awaitSelect 2 1 2, true⟩], trace := [] }
      0 2 ⟨.awaitSelect 2 1 2, true⟩ (by decide) (by decide) (by decide),
   c2_failure_amended.2.1 [.spawn 4 5, .run 1, .deliver 0 0]
      { hasInterface := true, session := some 0, tokenCtr := 3,
        tasks := [⟨.failed, true⟩], trace := [] }
      0 true (by decide)⟩

/-- "C2": counterexample to the claim as stated — the spec's scenario: the
`SelectDevices` response carries non-zero status 2, the invocation that
ran setup fails, but a future `setPointer` caller does not receive the
error: it resolves (`done`), and even sends a `NotifyPointerMotion`,
because no `Failed` state exists and the assigned interface handle makes
every later caller skip setup. -/
theorem c2_counterexample :
    (exec [.spawn 1 2, .run 0, .run 0, .deliver 0 0, .deliver 0 2, .spawn 3 4, .run 1]
        initState).tasks[0]? = some ⟨.failed, true⟩
    ∧ (exec [.spawn 1 2, .run 0, .run 0, .deliver 0 0, .deliver 0 2, .spawn 3 4, .run 1]
        initState).tasks[1]? = some ⟨.done, false⟩
    ∧ (exec [.spawn 1 2, .run 0, .run 0, .deliver 0 0, .deliver 0 2, .spawn 3 4, .run 1]
        initState).tasks[1]? ≠ some ⟨.failed, false⟩
    ∧ evCount isNotifySend
        (exec [.spawn 1 2, .run 0, .run 0, .deliver 0 0, .deliver 0 2, .spawn 3 4, .run 1]
          initState).trace = 1 := by
  decide

end Portal

namespace Corr

theorem findTok_deliver_frame (tok st pl tok' : Nat) (l : List (Nat × Outcome))
    (h : tok' ≠ tok) :
    findTok tok'
        (l.map fun e =>
          if e.1 = tok ∧ e.2 = Outcome.pending then (e.1, settleOutcome st pl) else e)
      = findTok tok' l := by
  induction l with
  | nil => rfl
  | cons e rest ih =>
    obtain ⟨k, o⟩ := e
    by_cases hk : k = tok'
    · subst hk
      have hcond : ¬(k = tok ∧ o = Outcome.pending) := by
        rintro ⟨rfl, -⟩
        exact h rfl
      simp [findTok, hcond]
    · by_cases hc : k = tok ∧ o = Outcome.pending
      · obtain ⟨rfl, rfl⟩ := hc
        simp [findTok, hk, ih]
      · simp [findTok, hc, hk, ih]

theorem findTok_deliver_self (tok st pl : Nat) (l : List (Nat × Outcome))
    (h : findTok tok l = some Outcome.pending) :
    findTok tok
        (l.map fun e =>
          if e.1 = tok ∧ e.2 = Outcome.pending then (e.1, settleOutcome st pl) else e)
      = some (settleOutcome st pl) := by
  induction l with
  | nil => cases h
  | cons e rest ih =>
    obtain ⟨k, o⟩ := e
    by_cases hk : k = tok
    · subst hk
      rw [findTok, if_pos rfl] at h
      have ho : o = Outcome.pending := by cases h; rfl
      subst ho
      simp [findTok]
    · rw [findTok, if_neg hk] at h
      by_cases hc : k = tok ∧ o = Outcome.pending <;>
        simp [findTok, hc, hk, ih h]

theorem findTok_connDrop_pending (tok : Nat) (l : List (Nat × Outcome))
    (h : findTok tok l = some Outcome.pending) :
    findTok tok
        (l.map fun e => if e.2 = Outcome.pending then (e.1, Outcome.connLost) else e)
      = some Outcome.connLost := by
  induction l with
  | nil => cases h
  | cons e rest ih =>
    obtain ⟨k, o⟩ := e
    by_cases hk : k = tok
    · subst hk
      rw [findTok, if_pos rfl] at h
      have ho : o = Outcome.pending := by cases h; rfl
      subst ho
      simp [findTok]
    · rw [findTok, if_neg hk] at h
      by_cases ho : o = Outcome.pending <;> simp [findTok, ho, hk, ih h]

theorem findTok_connDrop_settled (tok : Nat) (o : Outcome) (l : List (Nat × Outcome))
    (hne : o ≠ Outcome.pending) (h : findTok tok l = some o) :
    findTok tok
        (l.map fun e => if e.2 = Outcome.pending then (e.1, Outcome.connLost) else e)
      = some o := by
  induction l with
  | nil => cases h
  | cons e rest ih =>
    obtain ⟨k, p⟩ := e
    by_cases hk : k = tok
    · subst hk
      rw [findTok, if_pos rfl] at h
      have hp : p = o := by cases h; rfl
      subst hp
      simp [findTok, hne]
    · rw [findTok, if_neg hk] at h
      by_cases hp : p = Outcome.pending <;> simp [findTok, hp, hk, ih h]

theorem findTok_connDrop_not_pending (tok : Nat) (l : List (Nat × Outcome)) :
    findTok tok
        (l.map fun e => if e.2 = Outcome.pending then (e.1, Outcome.connLost) else e)
      ≠ some Outcome.pending := by
  induction l with
  | nil => intro h; cases h
  | cons e rest ih =>
    obtain ⟨k, o⟩ := e
    by_cases hk : k = tok
    · subst hk
      by_cases ho : o = Outcome.pending <;> simp [findTok, ho]
    · by_cases ho : o = Outcome.pending <;> simp [findTok, ho, hk, ih]

/-- "C5": request correlation specificity.  Confirmed (spec-modelled:
`DesktopPortal.makeRequest` and the response subscription are not among
the sources; the correlator is built from §4.2 of the spec): a response
delivered on the channel derived from token `tok` settles exactly the
pending future registered for `tok` — with the success payload on status
0 and the failure status otherwise — and the future registered on any
other token is completely untouched, whatever its state and however many
requests are simultaneously pending. -/
theorem c5_correlation_specific :
    (∀ (s : CorrState) (tok st pl : Nat),
        findTok tok s.futures = some Outcome.pending →
        findTok tok (deliver tok st pl s).futures = some (settleOutcome st pl))
    ∧ (∀ (s : CorrState) (tok st pl tok' : Nat), tok' ≠ tok →
        findTok tok' (deliver tok st pl s).futures = findTok tok' s.futures) :=
  ⟨fun s tok st pl h => findTok_deliver_self tok st pl s.futures h,
   fun s tok st pl tok' h => findTok_deliver_frame tok st pl tok' s.futures h⟩

/-- "C5": witness — with the requests for tokens 0 and 1 both pending,
delivering a status-0 response with payload 9 on token 0's channel settles
token 0's future with that payload and leaves token 1's future exactly as
it was. -/
theorem c5_correlation_specific_witness :
    findTok 0 (deliver 0 0 9 (pendingN 2)).futures = some (settleOutcome 0 9)
    ∧ findTok 1 (deliver 0 0 9 (pendingN 2)).futures = findTok 1 (pendingN 2).futures :=
  ⟨c5_correlation_specific.1 (pendingN 2) 0 0 9 (by decide),
   c5_correlation_specific.2 (pendingN 2) 0 0 9 1 (by decide)⟩

/-- "C6": at-most-once settlement.  Confirmed (spec-modelled: the pending
table lives in the `DesktopPortal` base, absent from the sources; built
from §4.2 step 5 — "Remove the pending entry in either case"): after a
response for a token has been delivered once, the entry for that token is
no longer pending (whether the first delivery settled it with success or
failure), so delivering a second response for the same token is the
identity on the whole correlator state — it is ignored, and no error is
raised (delivery is total).  Stated as: the second delivery, with any
status and payload whatsoever, leaves the state of the first delivery
unchanged. -/
theorem c6_at_most_once (s : CorrState) (tok st1 pl1 st2 pl2 : Nat) :
    deliver tok st2 pl2 (deliver tok st1 pl1 s) = deliver tok st1 pl1 s := by
  obtain ⟨n, l⟩ := s
  simp only [deliver, List.map_map, CorrState.mk.injEq, true_and]
  induction l with
  | nil => rfl
  | cons e rest ih =>
    obtain ⟨k, o⟩ := e
    simp only [List.map_cons, Function.comp_apply] at ih ⊢
    rw [ih]
    congr 1
    by_cases hc : k = tok ∧ o = Outcome.pending
    · obtain ⟨rfl, rfl⟩ := hc
      by_cases hst : st1 = 0 <;>
        simp [settleOutcome, hst]
    · simp [if_neg hc, hc]

/-- "C7": connection-drop settlement.  Confirmed (spec-modelled: the
teardown handler lives in the `DesktopPortal` base, absent from the
sources; built from §4.2 step 6 and §7 of the spec): when the underlying
connection terminates, every pending future is settled with the
connection-failure error, every already-settled future keeps its (typed)
outcome, and afterwards no future of the correlator is pending — none
remains unresolved. -/
theorem c7_connection_drop :
    (∀ (s : CorrState) (tok : Nat),
        findTok tok s.futures = some Outcome.pending →
        findTok tok (connDrop s).futures = some Outcome.connLost)
    ∧ (∀ (s : CorrState) (tok : Nat) (o : Outcome), o ≠ Outcome.pending →
        findTok tok s.futures = some o →
        findTok tok (connDrop s).futures = some o)
    ∧ (∀ (s : CorrState) (tok : Nat),
        findTok tok (connDrop s).futures ≠ some Outcome.pending) :=
  ⟨fun s tok h => findTok_connDrop_pending tok s.futures h,
   fun s tok o hne h => findTok_connDrop_settled tok o s.futures hne h,
   fun s tok => findTok_connDrop_not_pending tok s.futures⟩

/-- "C7": witness — the spec's scenario: tearing the transport down while
the 3 requests with tokens 0, 1, 2 are pending settles all three with the
connection failure; none stays pending. -/
theorem c7_connection_drop_witness :
    findTok 0 (connDrop (pendingN 3)).futures = some Outcome.connLost
    ∧ findTok 1 (connDrop (pendingN 3)).futures = some Outcome.connLost
    ∧ findTok 2 (connDrop (pendingN 3)).futures = some Outcome.connLost
    ∧ findTok 0 (connDrop (pendingN 3)).futures ≠ some Outcome.pending :=
  ⟨c7_connection_drop.1 (pendingN 3) 0 (by decide),
   c7_connection_drop.1 (pendingN 3) 1 (by decide),
   c7_connection_drop.1 (pendingN 3) 2 (by decide),
   c7_connection_drop.2.2 (pendingN 3) 0⟩

end Corr

namespace TokenGen

theorem decVal_decChar (d : Nat) (h : d < 10) : decVal (decChar d) = d := by
  interval_cases d <;> decide

theorem fromDigits_append_one (xs : List Char) (c : Char) :
    fromDigits (xs ++ [c]) = 10 * fromDigits xs + decVal c := by
  simp [fromDigits, List.foldl_append]

theorem fromDigits_natDigits (n : Nat) : fromDigits (natDigits n) = n := by
  induction n using Nat.strong_induction_on with
  | _ n ih =>
    by_cases h : n < 10
    · rw [natDigits, if_pos h]
      simp [fromDigits, decVal_decChar n h]
    · rw [natDigits, if_neg h]
      rw [fromDigits_append_one]
      rw [ih (n / 10) (Nat.div_lt_self (by omega) (by omega))]
      rw [decVal_decChar (n % 10) (Nat.mod_lt _ (by omega))]
      omega

theorem tokenStr_inj (pfx : String) (i j : Nat)
    (h : tokenStr pfx i = tokenStr pfx j) : i = j := by
  have hdata : (tokenStr pfx i).data = (tokenStr pfx j).data := by rw [h]
  simp only [tokenStr, String.data_append] at hdata
  have hdigits : natDigits i = natDigits j := List.append_cancel_left hdata
  calc i = fromDigits (natDigits i) := (fromDigits_natDigits i).symm
    _ = fromDigits (natDigits j) := by rw [hdigits]
    _ = j := fromDigits_natDigits j

theorem genTokens_eq_map (pfx : String) (n c : Nat) :
    genTokens pfx n ⟨c⟩ = (List.range' c n).map (tokenStr pfx) := by
  induction n generalizing c with
  | zero => rfl
  | succ m ih => simp [genTokens, generate, List.range'_succ, ih]

theorem validSegChar_decChar (d : Nat) (h : d < 10) :
    validSegChar (decChar d) = true := by
  interval_cases d <;> decide

theorem natDigits_valid (n : Nat) : (natDigits n).all validSegChar = true := by
  induction n using Nat.strong_induction_on with
  | _ n ih =>
    by_cases h : n < 10
    · rw [natDigits, if_pos h]
      simp [validSegChar_decChar n h]
    · rw [natDigits, if_neg h]
      rw [List.all_append]
      have h1 := ih (n / 10) (Nat.div_lt_self (by omega) (by omega))
      have h2 := validSegChar_decChar (n % 10) (Nat.mod_lt _ (by omega))
      simp [h1, h2]

theorem tokenStr_valid (pfx : String) (c : Nat) (hp : validSeg pfx = true) :
    validSeg (tokenStr pfx c) = true := by
  simp only [validSeg, Bool.and_eq_true, Bool.not_eq_true'] at hp ⊢
  obtain ⟨-, hall⟩ := hp
  constructor
  · simp [tokenStr, String.data_append]
  · simp only [tokenStr, String.data_append, List.all_append, Bool.and_eq_true]
    refine ⟨⟨hall, by decide⟩, ?_⟩
    exact natDigits_valid c

/-- "C8": token uniqueness.  Confirmed (spec-modelled:
`DesktopPortal.generateToken` is not among the sources; the generator is
built from §4.1 of the spec, using its sanctioned monotonically increasing
counter as the unique part of the token): for every `n`, the `n` tokens
obtained from `n` successive `generate(prefix)` calls of one process-wide
generator are pairwise distinct (`Nodup` is `Pairwise (· ≠ ·)`), and —
provided the caller's prefix is itself a valid bus-object-path segment,
as the literals `'session'` and `'request'` are — every generated token is
a nonempty string of bus-object-path-segment characters
(`[A-Za-z0-9_]`). -/
theorem c8_token_uniqueness (pfx : String) (n : Nat) (hp : validSeg pfx = true) :
    (genTokens pfx n ⟨0⟩).Nodup
    ∧ ∀ t ∈ genTokens pfx n ⟨0⟩, validSeg t = true := by
  rw [genTokens_eq_map]
  constructor
  · exact List.Nodup.map (fun i j hij => tokenStr_inj pfx i j hij)
      (List.nodup_range' 0 n)
  · intro t ht
    obtain ⟨c, -, rfl⟩ := List.mem_map.mp ht
    exact tokenStr_valid pfx c hp

/-- "C8": witness — 2000 tokens generated with the prefix `session` (the
prefix `RemoteDesktop.connect` actually uses) are pairwise distinct and
all valid path segments. -/
theorem c8_token_uniqueness_witness :
    validSeg "session" = true
    ∧ ((genTokens "session" 2000 ⟨0⟩).Nodup
       ∧ ∀ t ∈ genTokens "session" 2000 ⟨0⟩, validSeg t = true) :=
  ⟨by decide, c8_token_uniqueness "session" 2000 (by decide)⟩

end TokenGen

namespace Trash

theorem redraw_invariant (s : TrashState) :
    (redraw s).draggables = (redraw s).trash
    ∧ TokenGen.fromDigits (redraw s).counter.data = (redraw s).trash.length := by
  refine ⟨rfl, ?_⟩
  exact TokenGen.fromDigits_natDigits s.trash.length

theorem applyT_invariant (e : TEvent) (s : TrashState) :
    (applyT e s).draggables = (applyT e s).trash
    ∧ TokenGen.fromDigits (applyT e s).counter.data = (applyT e s).trash.length := by
  cases e with
  | drop item => exact redraw_invariant { s with trash := s.trash ++ [item] }
  | restore item =>
    exact redraw_invariant { s with trash := s.trash.filter (fun t => t != item) }

theorem foldl_applyT_invariant (evs : List TEvent) (s : TrashState)
    (h : s.draggables = s.trash
      ∧ TokenGen.fromDigits s.counter.data = s.trash.length) :
    (evs.foldl (fun s e => applyT e s) s).draggables
      = (evs.foldl (fun s e => applyT e s) s).trash
    ∧ TokenGen.fromDigits (evs.foldl (fun s e => applyT e s) s).counter.data
      = (evs.foldl (fun s e => applyT e s) s).trash.length := by
  induction evs generalizing s with
  | nil => exact h
  | cons e rest ih => exact ih (applyT e s) (applyT_invariant e s)

/-- "C10": trash-tab consistency.  Confirmed: after construction and after
every sequence of `onDrop` and item-restore events, (1) the registered
draggables are exactly one per trashed item, in order (`redraw` first
unregisters every draggable, then registers one fresh draggable per trash
entry); (2) the trash counter element displays exactly the number of items
in the trash array (decoding its decimal text yields `trash.length`); and
(3) an `onDrop` event appends exactly the dropped item to the trash
array — the length grows by exactly one and no existing item is
removed. -/
theorem c10_trash_consistency :
    (∀ evs : List TEvent,
        (runT evs).draggables = (runT evs).trash
        ∧ TokenGen.fromDigits (runT evs).counter.data = (runT evs).trash.length)
    ∧ (∀ (evs : List TEvent) (d : Nat),
        (runT (evs ++ [TEvent.drop d])).trash = (runT evs).trash ++ [d]) := by
  constructor
  · intro evs
    exact foldl_applyT_invariant evs initTrash
      ⟨rfl, redraw_invariant { trash := [], draggables := [], counter := "" } |>.2⟩
  · intro evs d
    rw [runT, List.foldl_append]
    rfl

end Trash
